import Mathlib

/-!
Shallow embedding of the serde-net wire codec (src/ser.rs, src/de.rs,
src/error.rs).

Bytes are modelled as natural numbers below 256 in a `List Nat`.  The
serializer in the source appends to a `Vec<u8>`, whose writes cannot fail,
so each `serialize_*` method is modelled as the list of bytes that one call
appends, wrapped in an `Outcome`.  The deserializer reads from a
`Cursor<&[u8]>`; it is modelled as explicit state passing over a `Cursor`
structure.  Rust panics arising from `unimplemented!()` and `todo!()` in the
source are modelled as the distinguished outcome `Outcome.panicked`,
separate from the `Error` values the library returns.
-/

set_option autoImplicit false

namespace SerdeNet

/-- Kind of a low-level read/write error coming from the byte source
(`std::io::ErrorKind` in the source); only `unexpectedEof` is distinguished
by the code, every other kind is collapsed into `other` with an
uninterpreted code. -/
inductive IoErrorKind where
  | unexpectedEof
  | other (code : Nat)
deriving DecidableEq

/-- A low-level read/write error (`std::io::Error`): the codec only ever
inspects its kind. -/
structure IoError where
  kind : IoErrorKind
deriving DecidableEq

/-- The error taxonomy of src/error.rs. -/
inductive Error where
  | Message (msg : String)
  | Io (e : IoError)
  | LengthNotKnown
  | InvalidString
  | InvalidChar
  | TrailingBytes
  | EofWhileDeserializing
deriving DecidableEq

/-- `Error::io` (src/error.rs lines 19-27): wraps a low-level error,
reclassifying end-of-file conditions as `EofWhileDeserializing`. -/
def Error.io (err : IoError) : Error :=
  if err.kind = IoErrorKind.unexpectedEof then Error.EofWhileDeserializing
  else Error.Io err

/-- The result of running a piece of the codec: a normal value, a library
`Error` (Rust `Result::Err`), or a Rust panic (`unimplemented!()` /
`todo!()` in the source). -/
inductive Outcome (α : Type) where
  | ok (val : α)
  | err (e : Error)
  | panicked
deriving DecidableEq

def Outcome.bind {α β : Type} : Outcome α → (α → Outcome β) → Outcome β
  | .ok a, f => f a
  | .err e, _ => .err e
  | .panicked, _ => .panicked

def Outcome.map {α β : Type} (f : α → β) : Outcome α → Outcome β
  | .ok a => .ok (f a)
  | .err e => .err e
  | .panicked => .panicked

/-- Big-endian bytes of a machine integer: `beBytes w n` is the `w`-byte
network-byte-order encoding of `n` reduced modulo `2 ^ (8 * w)`, exactly
what `write_uNN::<NetworkEndian>` emits after an `as uNN` cast. -/
def beBytes : Nat → Nat → List Nat
  | 0, _ => []
  | w + 1, n => (n / 2 ^ (8 * w)) % 256 :: beBytes w n

/-- Big-endian value of a byte list, as read by `read_uNN::<NetworkEndian>`. -/
def fromBE (bs : List Nat) : Nat :=
  bs.foldl (fun acc b => acc * 256 + b) 0

/-- The read side state: `Cursor::new(input)` over an in-memory buffer,
with the position it has consumed up to (src/de.rs lines 9-18). -/
structure Cursor where
  data : List Nat
  pos : Nat
deriving DecidableEq

/-- `read_exact` on the cursor: consume exactly `n` bytes, or fail with an
`UnexpectedEof` io error (which `Error::io` turns into
`EofWhileDeserializing`). -/
def Cursor.readExact (c : Cursor) (n : Nat) : Outcome (List Nat × Cursor) :=
  if c.pos + n ≤ c.data.length then
    .ok ((c.data.drop c.pos).take n, { c with pos := c.pos + n })
  else
    .err ( Error.io { kind := IoErrorKind.unexpectedEof })

/-- `read_u8`: consume one byte. -/
def Cursor.readU8 (c : Cursor) : Outcome (Nat × Cursor) :=
  if h : c.pos < c.data.length then
    .ok (c.data.get ⟨c.pos, h⟩, { c with pos := c.pos + 1 })
  else
    .err ( Error.io { kind := IoErrorKind.unexpectedEof })

/-- `read_u16::<NetworkEndian>`: consume two bytes, big-endian. -/
def Cursor.readU16 (c : Cursor) : Outcome (Nat × Cursor) :=
  match c.readExact 2 with
  | .ok (bs, c') => .ok (fromBE bs, c')
  | .err e => .err e
  | .panicked => .panicked

/-- UTF-8 encoding of a Unicode code point, as produced by Rust
`char::to_string` followed by `str::as_bytes`. -/
def utf8EncodeChar (n : Nat) : List Nat :=
  if n < 0x80 then [n]
  else if n < 0x800 then [0xC0 + n / 64, 0x80 + n % 64]
  else if n < 0x10000 then
    [0xE0 + n / 4096, 0x80 + (n / 64) % 64, 0x80 + n % 64]
  else
    [0xF0 + n / 262144, 0x80 + (n / 4096) % 64, 0x80 + (n / 64) % 64,
      0x80 + n % 64]

/-! ### Serializer (src/ser.rs)

Each function returns the bytes the corresponding `Serializer` method
appends to `self.output` (a `Vec<u8>`, whose writes never fail). -/

/-- `serialize_bool` (lines 33-35): one byte, `u8::from(v)`. -/
def serialize_bool (v : Bool) : Outcome (List Nat) :=
  .ok [if v then 1 else 0]

/-- `serialize_bytes` (lines 85-91): `write_u16::<NetworkEndian>(v.len() as u16)`
then the raw bytes.  The `as u16` cast reduces the length modulo 2 ^ 16,
which `beBytes 2` reproduces. -/
def serialize_bytes (v : List Nat) : Outcome (List Nat) :=
  .ok (beBytes 2 v.length ++ v)

/-- `serialize_str` (lines 81-83): delegates to `serialize_bytes` on the
UTF-8 bytes of the string. -/
def serialize_str (utf8 : List Nat) : Outcome (List Nat) :=
  serialize_bytes utf8

/-- `serialize_char` (lines 77-79): `self.serialize_str(&v.to_string())`,
i.e. the character is encoded as a length-prefixed UTF-8 string, not as a
4-byte code point. -/
def serialize_char (v : Char) : Outcome (List Nat) :=
  serialize_str (utf8EncodeChar v.toNat)

/-- `serialize_none` (lines 93-95). -/
def serialize_none : Outcome (List Nat) :=
  serialize_bool false

/-- `serialize_unit` (lines 105-107): the body is `unimplemented!()`. -/
def serialize_unit : Outcome (List Nat) :=
  .panicked

/-- `serialize_unit_struct` (lines 109-111): `unimplemented!()`. -/
def serialize_unit_struct : Outcome (List Nat) :=
  .panicked

/-- `serialize_unit_variant` (lines 113-121): writes
`variant_index as u8`, one byte. -/
def serialize_unit_variant (variant_index : Nat) : Outcome (List Nat) :=
  .ok [variant_index % 256]

/-- `serialize_newtype_variant` (lines 130-145): writes the one-byte tag
`variant_index as u8`, then the bytes of the payload. -/
def serialize_newtype_variant (variant_index : Nat)
    (value : Outcome (List Nat)) : Outcome (List Nat) :=
  value.map (fun bs => variant_index % 256 :: bs)

/-- `serialize_seq` (lines 147-158): with a known length writes the 2-byte
big-endian count `len as u16`; without one fails with `LengthNotKnown`. -/
def serialize_seq (len : Option Nat) : Outcome (List Nat) :=
  match len with
  | some len => .ok (beBytes 2 len)
  | none => .err Error.LengthNotKnown

/-- `serialize_tuple_variant` (lines 172-184): writes the one-byte tag
`variant_index as u8`; the fields follow through later calls. -/
def serialize_tuple_variant (variant_index : Nat) : Outcome (List Nat) :=
  .ok [variant_index % 256]

/-- `serialize_map` (lines 186-197): same length gate as `serialize_seq`. -/
def serialize_map (len : Option Nat) : Outcome (List Nat) :=
  match len with
  | some len => .ok (beBytes 2 len)
  | none => .err Error.LengthNotKnown

/-- `serialize_struct_variant` (lines 203-215): writes the one-byte tag
`variant_index as u8`. -/
def serialize_struct_variant (variant_index : Nat) : Outcome (List Nat) :=
  .ok [variant_index % 256]

/-! ### Deserializer (src/de.rs)

Each `deserialize_*` method is a function from a cursor to an `Outcome` of
the decoded value paired with the advanced cursor.  Composite decoders take
the element decoders (the serde `DeserializeSeed` callbacks) as function
arguments. -/

/-- `deserialize_bool` (lines 41-47): one byte, `value != 0`. -/
def deserialize_bool (c : Cursor) : Outcome (Bool × Cursor) :=
  (c.readU8).map (fun p => (p.1 != 0, p.2))

/-- `deserialize_u8` (lines 81-87). -/
def deserialize_u8 (c : Cursor) : Outcome (Nat × Cursor) :=
  c.readU8

/-- `deserialize_u16` (lines 89-95). -/
def deserialize_u16 (c : Cursor) : Outcome (Nat × Cursor) :=
  c.readU16

/-- `deserialize_char` (lines 129-134): the body is `todo!()`, so every
call panics without consuming input. -/
def deserialize_char (_c : Cursor) : Outcome (Char × Cursor) :=
  .panicked

/-- `Vec::with_capacity(n)` allocates capacity `n` but the vector it
returns has length 0; its element list is empty. -/
def vecWithCapacity (_n : Nat) : List Nat :=
  []

/-- `deserialize_bytes` (lines 154-162): reads the 2-byte length, then
calls `read_exact` on `Vec::with_capacity(length)` - a buffer whose length
is 0 - so it fills `(vecWithCapacity length).length = 0` bytes. -/
def deserialize_bytes (c : Cursor) : Outcome (List Nat × Cursor) :=
  Outcome.bind c.readU16 (fun p =>
    (p.2.readExact (vecWithCapacity p.1).length).map (fun q => (q.1, q.2)))

/-- `deserialize_option` (lines 171-181): one presence byte, then the inner
value when the byte is nonzero. -/
def deserialize_option {α : Type} (seed : Cursor → Outcome (α × Cursor))
    (c : Cursor) : Outcome (Option α × Cursor) :=
  Outcome.bind c.readU8 (fun p =>
    if p.1 = 0 then .ok (none, p.2)
    else (seed p.2).map (fun q => (some q.1, q.2)))

/-- `deserialize_unit` (lines 183-188): the body is `unimplemented!()`. -/
def deserialize_unit (_c : Cursor) : Outcome (Unit × Cursor) :=
  .panicked

/-- The `LengthDefined` traversal state (src/de.rs lines 285-299): the
declared element count and the cursor of elements consumed so far. -/
structure LengthDefined where
  length : Nat
  index : Nat
deriving DecidableEq

/-- `LengthDefined::next_element_seed` (src/de.rs lines 301-315): while
`index < length`, increment the index and run the element decoder;
afterwards answer `none` (no more elements), regardless of how many bytes
remain in the source.  `next_key_seed` (lines 320-330) is the same code. -/
def next_element_seed {α : Type} (seed : Cursor → Outcome (α × Cursor))
    (st : LengthDefined) (c : Cursor) :
    Outcome (Option α × LengthDefined × Cursor) :=
  if st.index < st.length then
    match seed c with
    | .ok (a, c') => .ok (some a, { st with index := st.index + 1 }, c')
    | .err e => .err e
    | .panicked => .panicked
  else
    .ok (none, st, c)

/-- The serde-derived sequence visitor loop (`Vec::deserialize` and
friends): repeatedly call `next_element_seed` with the `LengthDefined`
state `{ length, index }`, collecting elements until it answers `none`.
The index test, the increment and the element decode are inlined from
`next_element_seed`; `driveSeq_eq_next_element_seed` below proves one loop
step equal to that function. -/
def driveSeq {α : Type} (seed : Cursor → Outcome (α × Cursor))
    (length index : Nat) (c : Cursor) : Outcome (List α × Cursor) :=
  if _h : index < length then
    match seed c with
    | .ok (a, c') =>
      match driveSeq seed length (index + 1) c' with
      | .ok (rest, c'') => .ok (a :: rest, c'')
      | .err e => .err e
      | .panicked => .panicked
    | .err e => .err e
    | .panicked => .panicked
  else
    .ok ([], c)
termination_by length - index

/-- `deserialize_seq` (lines 204-211): read the 2-byte big-endian element
count, then drive the visitor over a fresh `LengthDefined` state. -/
def deserialize_seq {α : Type} (seed : Cursor → Outcome (α × Cursor))
    (c : Cursor) : Outcome (List α × Cursor) :=
  Outcome.bind c.readU16 (fun p => driveSeq seed p.1 0 p.2)

/-- `deserialize_tuple` (lines 213-220): no count is read; the arity comes
from the shape and seeds a `LengthDefined` directly. -/
def deserialize_tuple {α : Type} (seed : Cursor → Outcome (α × Cursor))
    (len : Nat) (c : Cursor) : Outcome (List α × Cursor) :=
  driveSeq seed (len % 65536) 0 c

/-- The serde map visitor loop (`BTreeMap::deserialize` and friends):
`next_key_seed` is gated by `index < length` and increments the index
(identical code to `next_element_seed`), `next_value_seed` (lines 332-337)
runs the value decoder ungated. -/
def driveMap {κ ν : Type} (kseed : Cursor → Outcome (κ × Cursor))
    (vseed : Cursor → Outcome (ν × Cursor)) (length index : Nat)
    (c : Cursor) : Outcome (List (κ × ν) × Cursor) :=
  if _h : index < length then
    match kseed c with
    | .ok (k, c') =>
      match vseed c' with
      | .ok (v, c'') =>
        match driveMap kseed vseed length (index + 1) c'' with
        | .ok (rest, c3) => .ok ((k, v) :: rest, c3)
        | .err e => .err e
        | .panicked => .panicked
      | .err e => .err e
      | .panicked => .panicked
    | .err e => .err e
    | .panicked => .panicked
  else
    .ok ([], c)
termination_by length - index

/-- `deserialize_map` (lines 236-243): read the 2-byte big-endian entry
count, then drive the map visitor. -/
def deserialize_map {κ ν : Type} (kseed : Cursor → Outcome (κ × Cursor))
    (vseed : Cursor → Outcome (ν × Cursor)) (c : Cursor) :
    Outcome (List (κ × ν) × Cursor) :=
  Outcome.bind c.readU16 (fun p => driveMap kseed vseed p.1 0 p.2)

/-- The enum tag read of `Enum::variant_seed` (src/de.rs lines 354-361):
one byte. -/
def variant_seed (c : Cursor) : Outcome (Nat × Cursor) :=
  c.readU8

/-- The entry point `from_reader` (src/de.rs lines 21-29): wrap the buffer
in a cursor at position 0, run the decoder, and return its value.  The
position reached is discarded: no check of unconsumed bytes is performed. -/
def from_reader {α : Type} (seed : Cursor → Outcome (α × Cursor))
    (input : List Nat) : Outcome α :=
  match seed { data := input, pos := 0 } with
  | .ok (a, _) => .ok a
  | .err e => .err e
  | .panicked => .panicked

/-! ### Helper lemmas -/

/-- One unfolding of the visitor loop below the declared count. -/
theorem driveSeq_of_lt {α : Type} (seed : Cursor → Outcome (α × Cursor))
    (length index : Nat) (c : Cursor) (h : index < length) :
    driveSeq seed length index c =
      match seed c with
      | .ok (a, c') =>
        match driveSeq seed length (index + 1) c' with
        | .ok (rest, c'') => .ok (a :: rest, c'')
        | .err e => .err e
        | .panicked => .panicked
      | .err e => .err e
      | .panicked => .panicked := by
  rw [driveSeq]
  simp [h]

/-- One unfolding of the visitor loop at or above the declared count. -/
theorem driveSeq_of_ge {α : Type} (seed : Cursor → Outcome (α × Cursor))
    (length index : Nat) (c : Cursor) (h : ¬ index < length) :
    driveSeq seed length index c = .ok ([], c) := by
  rw [driveSeq]
  simp [h]

/-- One unfolding of the map visitor loop below the declared count. -/
theorem driveMap_of_lt {κ ν : Type} (kseed : Cursor → Outcome (κ × Cursor))
    (vseed : Cursor → Outcome (ν × Cursor)) (length index : Nat) (c : Cursor)
    (h : index < length) :
    driveMap kseed vseed length index c =
      match kseed c with
      | .ok (k, c') =>
        match vseed c' with
        | .ok (v, c'') =>
          match driveMap kseed vseed length (index + 1) c'' with
          | .ok (rest, c3) => .ok ((k, v) :: rest, c3)
          | .err e => .err e
          | .panicked => .panicked
        | .err e => .err e
        | .panicked => .panicked
      | .err e => .err e
      | .panicked => .panicked := by
  rw [driveMap]
  simp [h]

/-- One unfolding of the map visitor loop at or above the declared count. -/
theorem driveMap_of_ge {κ ν : Type} (kseed : Cursor → Outcome (κ × Cursor))
    (vseed : Cursor → Outcome (ν × Cursor)) (length index : Nat) (c : Cursor)
    (h : ¬ index < length) :
    driveMap kseed vseed length index c = .ok ([], c) := by
  rw [driveMap]
  simp [h]

/-- Each step of the sequence visitor loop is exactly one call of the
source function `next_element_seed` on the state `⟨length, index⟩`. -/
theorem driveSeq_eq_next_element_seed {α : Type}
    (seed : Cursor → Outcome (α × Cursor)) (length index : Nat) (c : Cursor) :
    driveSeq seed length index c =
      match next_element_seed seed ⟨length, index⟩ c with
      | .ok (some a, st', c') =>
        match driveSeq seed st'.length st'.index c' with
        | .ok (rest, c'') => .ok (a :: rest, c'')
        | .err e => .err e
        | .panicked => .panicked
      | .ok (none, _, c') => .ok ([], c')
      | .err e => .err e
      | .panicked => .panicked := by
  by_cases h : index < length
  · rw [driveSeq_of_lt seed length index c h]
    unfold next_element_seed
    simp only [h, if_pos]
    cases seed c with
    | ok p => rfl
    | err e => rfl
    | panicked => rfl
  · rw [driveSeq_of_ge seed length index c h]
    unfold next_element_seed
    simp [h]

/-- When the sequence visitor loop succeeds starting at `index`, it has
collected exactly `length - index` elements. -/
theorem driveSeq_ok_length_aux {α : Type} (seed : Cursor → Outcome (α × Cursor)) :
    ∀ (n length index : Nat) (c : Cursor) (l : List α) (c' : Cursor),
      length - index ≤ n →
      driveSeq seed length index c = .ok (l, c') → l.length = length - index := by
  intro n
  induction n with
  | zero =>
    intro length index c l c' hn h
    have hge : ¬ index < length := by omega
    rw [driveSeq_of_ge seed length index c hge] at h
    injection h with h
    injection h with h1 h2
    subst h1
    simp
    omega
  | succ n ih =>
    intro length index c l c' hn h
    by_cases hlt : index < length
    · rw [driveSeq_of_lt seed length index c hlt] at h
      split at h
      · split at h
        · injection h with h
          injection h with h1 h2
          subst h1
          rename_i hrec
          have := ih length (index + 1) _ _ _ (by omega) hrec
          simp only [List.length_cons, this]
          omega
        · exact absurd h (by simp)
        · exact absurd h (by simp)
      · exact absurd h (by simp)
      · exact absurd h (by simp)
    · rw [driveSeq_of_ge seed length index c hlt] at h
      injection h with h
      injection h with h1 h2
      subst h1
      simp
      omega

/-- When the map visitor loop succeeds starting at `index`, it has
collected exactly `length - index` entries. -/
theorem driveMap_ok_length_aux {κ ν : Type} (kseed : Cursor → Outcome (κ × Cursor))
    (vseed : Cursor → Outcome (ν × Cursor)) :
    ∀ (n length index : Nat) (c : Cursor) (l : List (κ × ν)) (c' : Cursor),
      length - index ≤ n →
      driveMap kseed vseed length index c = .ok (l, c') →
      l.length = length - index := by
  intro n
  induction n with
  | zero =>
    intro length index c l c' hn h
    have hge : ¬ index < length := by omega
    rw [driveMap_of_ge kseed vseed length index c hge] at h
    injection h with h
    injection h with h1 h2
    subst h1
    simp
    omega
  | succ n ih =>
    intro length index c l c' hn h
    by_cases hlt : index < length
    · rw [driveMap_of_lt kseed vseed length index c hlt] at h
      split at h
      · split at h
        · split at h
          · injection h with h
            injection h with h1 h2
            subst h1
            rename_i hrec
            have := ih length (index + 1) _ _ _ (by omega) hrec
            simp only [List.length_cons, this]
            omega
          · exact absurd h (by simp)
          · exact absurd h (by simp)
        · exact absurd h (by simp)
        · exact absurd h (by simp)
      · exact absurd h (by simp)
      · exact absurd h (by simp)
    · rw [driveMap_of_ge kseed vseed length index c hlt] at h
      injection h with h
      injection h with h1 h2
      subst h1
      simp
      omega

/-! ### Claims -/

/-- Claim C1: the round-trip law `decode(encode(v)) = v` fails on the
code.  For the byte sequence `[97, 98]`, encoding yields `[0, 2, 97, 98]`,
but decoding those bytes returns the empty byte sequence, because
`deserialize_bytes` calls `read_exact` on a `Vec::with_capacity` buffer of
length 0 and therefore consumes no content bytes. -/
theorem C1_roundtrip_bytes_failure :
    serialize_bytes [97, 98] = Outcome.ok [0, 2, 97, 98] ∧
    from_reader deserialize_bytes [0, 2, 97, 98] = Outcome.ok [] ∧
    (([] : List Nat) ≠ [97, 98]) := by
  decide

/-- Claim C2: the claim says a character is encoded as a 4-byte big-endian
code point and decoded by reading 4 bytes.  The code instead encodes the
character as a length-prefixed UTF-8 string (so `'a'` becomes `[0, 1, 97]`,
not `[0, 0, 0, 97]`), and `deserialize_char` is `todo!()`, which panics. -/
theorem C2_char_code_point_failure :
    serialize_char 'a' = Outcome.ok [0, 1, 97] ∧
    Outcome.ok [0, 1, 97] ≠ Outcome.ok ([0, 0, 0, 97] : List Nat) ∧
    serialize_char '💯' = Outcome.ok [0, 4, 240, 159, 146, 175] ∧
    deserialize_char (Cursor.mk [0, 0, 0, 97] 0) = Outcome.panicked := by
  decide

/-- Claim C3: the claim says byte-sequence decoding consumes exactly the
declared number of content bytes.  The code reads the 2-byte length and
then fills a `Vec::with_capacity(length)` buffer, whose length is 0, so it
consumes no content bytes at all: on `[0, 2, 97, 98]` it returns the empty
sequence with the cursor at position 2, and on `[0, 200]`, where 200
declared bytes are absent, it still succeeds instead of failing with
unexpected end of input. -/
theorem C3_deserialize_bytes_consumes_nothing :
    deserialize_bytes (Cursor.mk [0, 2, 97, 98] 0) =
      Outcome.ok ([], Cursor.mk [0, 2, 97, 98] 2) ∧
    deserialize_bytes (Cursor.mk [0, 200] 0) =
      Outcome.ok ([], Cursor.mk [0, 200] 2) := by
  decide

/-- Claim C4: the claim says the buffer-based decode fails with
`TrailingBytes` exactly when unconsumed bytes remain.  The entry point
`from_reader` performs no such check: decoding a bool from `[1, 42]`
consumes one byte, leaves byte 42 unconsumed, and still returns
`Outcome.ok true` rather than the `TrailingBytes` error. -/
theorem C4_no_trailing_bytes_check :
    deserialize_bool (Cursor.mk [1, 42] 0) =
      Outcome.ok (true, Cursor.mk [1, 42] 1) ∧
    from_reader deserialize_bool [1, 42] = Outcome.ok true ∧
    (Outcome.ok true : Outcome Bool) ≠ Outcome.err Error.TrailingBytes := by
  decide

/-- Claim C5, counterexample: encoding a byte sequence of length 65536
does not fail; the `as u16` cast truncates the length to 0 and the
encoder happily emits the prefix `[0, 0]` followed by all 65536 bytes. -/
theorem C5_counterexample_oversize_succeeds :
    serialize_bytes (List.replicate 65536 0) =
      Outcome.ok ([0, 0] ++ List.replicate 65536 0) := by
  have h : beBytes 2 65536 = [0, 0] := by decide
  unfold serialize_bytes
  rw [List.length_replicate, h]

/-- Claim C5, amended: encoding a string, byte sequence, sequence, or map
never fails because of an over-long size; the byte length or element
count is silently reduced modulo 65536 inside the 2-byte big-endian
prefix. -/
theorem C5_amended_silent_truncation :
    (∀ v : List Nat, serialize_bytes v = Outcome.ok (beBytes 2 v.length ++ v)) ∧
    (∀ utf8 : List Nat,
      serialize_str utf8 = Outcome.ok (beBytes 2 utf8.length ++ utf8)) ∧
    (∀ n : Nat, serialize_seq (some n) = Outcome.ok (beBytes 2 n)) ∧
    (∀ n : Nat, serialize_map (some n) = Outcome.ok (beBytes 2 n)) ∧
    (∀ n : Nat, fromBE (beBytes 2 n) = n % 65536) := by
  refine ⟨fun v => rfl, fun utf8 => rfl, fun n => rfl, fun n => rfl,
    fun n => ?_⟩
  simp [fromBE, beBytes]
  omega

/-- Claim C6: beginning a sequence or map without a known count fails with
`LengthNotKnown`; with a count it succeeds and writes the 2-byte
big-endian count prefix. -/
theorem C6_length_not_known_gate :
    serialize_seq none = Outcome.err Error.LengthNotKnown ∧
    serialize_map none = Outcome.err Error.LengthNotKnown ∧
    (∀ n : Nat, serialize_seq (some n) = Outcome.ok [n / 256 % 256, n % 256]) ∧
    (∀ n : Nat, serialize_map (some n) = Outcome.ok [n / 256 % 256, n % 256]) := by
  refine ⟨rfl, rfl, fun n => ?_, fun n => ?_⟩ <;>
    simp [serialize_seq, serialize_map, beBytes]

/-- Claim C7: `Error::io` reports every end-of-stream condition as
`EofWhileDeserializing` and every other low-level error as the generic
`Io` failure; the cursor reads raise exactly the end-of-stream case when
too few bytes remain. -/
theorem C7_io_error_classification :
    (∀ e : IoError, e.kind = IoErrorKind.unexpectedEof →
       Error.io e = Error.EofWhileDeserializing) ∧
    (∀ e : IoError, e.kind ≠ IoErrorKind.unexpectedEof →
       Error.io e = Error.Io e) ∧
    (∀ c : Cursor, c.data.length ≤ c.pos →
      c.readU8 = Outcome.err Error.EofWhileDeserializing) ∧
    (∀ (c : Cursor) (n : Nat), c.data.length < c.pos + n →
      c.readExact n = Outcome.err Error.EofWhileDeserializing) := by
  refine ⟨fun e he => ?_, fun e he => ?_, fun c hc => ?_, fun c n hc => ?_⟩
  · unfold Error.io
    rw [if_pos he]
  · unfold Error.io
    rw [if_neg he]
  · unfold Cursor.readU8
    rw [dif_neg (by omega)]
    rfl
  · unfold Cursor.readExact
    rw [if_neg (by omega)]
    rfl

/-- Witness for C7 at concrete errors and cursors. -/
theorem C7_io_error_classification_witness :
    Error.io { kind := IoErrorKind.unexpectedEof } =
      Error.EofWhileDeserializing ∧
    Error.io { kind := IoErrorKind.other 5 } =
      Error.Io { kind := IoErrorKind.other 5 } ∧
    Cursor.readU8 (Cursor.mk [] 0) = Outcome.err Error.EofWhileDeserializing ∧
    Cursor.readExact (Cursor.mk [7] 0) 2 =
      Outcome.err Error.EofWhileDeserializing :=
  ⟨C7_io_error_classification.1 { kind := IoErrorKind.unexpectedEof } rfl,
    C7_io_error_classification.2.1 { kind := IoErrorKind.other 5 } (by decide),
    C7_io_error_classification.2.2.1 (Cursor.mk [] 0) (by decide),
    C7_io_error_classification.2.2.2 (Cursor.mk [7] 0) 2 (by decide)⟩

/-- Claim C8: sequence and map decoding read a 2-byte big-endian count and
then decode exactly that many elements or entries; the `LengthDefined`
cursor answers "no more elements" as soon as its index reaches the
declared count, whatever bytes remain in the source. -/
theorem C8_counted_traversal :
    (∀ (α : Type) (seed : Cursor → Outcome (α × Cursor))
       (st : LengthDefined) (c : Cursor), st.length ≤ st.index →
       next_element_seed seed st c = Outcome.ok (none, st, c)) ∧
    (∀ (α : Type) (seed : Cursor → Outcome (α × Cursor)) (c : Cursor)
       (l : List α) (c' : Cursor),
       deserialize_seq seed c = Outcome.ok (l, c') →
       ∃ n c1, c.readU16 = Outcome.ok (n, c1) ∧ l.length = n ∧
         driveSeq seed n 0 c1 = Outcome.ok (l, c')) ∧
    (∀ (κ ν : Type) (kseed : Cursor → Outcome (κ × Cursor))
       (vseed : Cursor → Outcome (ν × Cursor)) (c : Cursor)
       (l : List (κ × ν)) (c' : Cursor),
       deserialize_map kseed vseed c = Outcome.ok (l, c') →
       ∃ n c1, c.readU16 = Outcome.ok (n, c1) ∧ l.length = n) := by
  refine ⟨fun α seed st c hge => ?_, fun α seed c l c' h => ?_,
    fun κ ν kseed vseed c l c' h => ?_⟩
  · unfold next_element_seed
    rw [if_neg (by omega)]
  · unfold deserialize_seq at h
    cases h16 : c.readU16 with
    | ok p =>
      obtain ⟨n, c1⟩ := p
      rw [h16] at h
      simp only [Outcome.bind] at h
      have hlen := driveSeq_ok_length_aux seed n n 0 c1 l c' (by omega) h
      exact ⟨n, c1, rfl, by omega, h⟩
    | err e =>
      rw [h16] at h
      simp [Outcome.bind] at h
    | panicked =>
      rw [h16] at h
      simp [Outcome.bind] at h
  · unfold deserialize_map at h
    cases h16 : c.readU16 with
    | ok p =>
      obtain ⟨n, c1⟩ := p
      rw [h16] at h
      simp only [Outcome.bind] at h
      have hlen := driveMap_ok_length_aux kseed vseed n n 0 c1 l c' (by omega) h
      exact ⟨n, c1, rfl, by omega⟩
    | err e =>
      rw [h16] at h
      simp [Outcome.bind] at h
    | panicked =>
      rw [h16] at h
      simp [Outcome.bind] at h

/-- Witness for C8: a two-element byte sequence decode, a one-entry map
decode, and an exhausted traversal cursor over a nonempty source. -/
theorem C8_counted_traversal_witness :
    next_element_seed deserialize_u8 (LengthDefined.mk 2 2)
      (Cursor.mk [5, 6, 7] 0) =
      Outcome.ok (none, LengthDefined.mk 2 2, Cursor.mk [5, 6, 7] 0) ∧
    (∃ n c1, Cursor.readU16 (Cursor.mk [0, 2, 7, 8] 0) = Outcome.ok (n, c1) ∧
      ([7, 8] : List Nat).length = n ∧
      driveSeq deserialize_u8 n 0 c1 =
        Outcome.ok ([7, 8], Cursor.mk [0, 2, 7, 8] 4)) ∧
    (∃ n c1, Cursor.readU16 (Cursor.mk [0, 1, 3, 9] 0) = Outcome.ok (n, c1) ∧
      ([(3, 9)] : List (Nat × Nat)).length = n) := by
  refine ⟨C8_counted_traversal.1 Nat deserialize_u8 (LengthDefined.mk 2 2)
      (Cursor.mk [5, 6, 7] 0) (by decide),
    C8_counted_traversal.2.1 Nat deserialize_u8 (Cursor.mk [0, 2, 7, 8] 0)
      [7, 8] (Cursor.mk [0, 2, 7, 8] 4) ?_,
    C8_counted_traversal.2.2 Nat Nat deserialize_u8 deserialize_u8
      (Cursor.mk [0, 1, 3, 9] 0) [(3, 9)] (Cursor.mk [0, 1, 3, 9] 4) ?_⟩
  · simp [deserialize_seq, driveSeq_of_lt, driveSeq_of_ge, deserialize_u8,
      Cursor.readU16, Cursor.readExact, Cursor.readU8, fromBE, Outcome.bind]
    decide
  · simp [deserialize_map, driveMap_of_lt, driveMap_of_ge, deserialize_u8,
      Cursor.readU16, Cursor.readExact, Cursor.readU8, fromBE, Outcome.bind]
    decide

/-- Claim C9: the claim says unit values and unit records encode to zero
bytes and decode consuming zero bytes.  In the code all three methods are
`unimplemented!()` and panic instead of succeeding. -/
theorem C9_unit_unimplemented_panics :
    serialize_unit = Outcome.panicked ∧
    serialize_unit_struct = Outcome.panicked ∧
    deserialize_unit (Cursor.mk [] 0) = Outcome.panicked ∧
    (Outcome.panicked : Outcome (List Nat)) ≠ Outcome.ok [] := by
  decide

/-- Claim C10: every variant serializer writes the variant index reduced
modulo 256 as a single byte and never fails on an out-of-range index; an
index of 256 or more is silently truncated. -/
theorem C10_variant_tag_modulo :
    (∀ idx : Nat, serialize_unit_variant idx = Outcome.ok [idx % 256]) ∧
    (∀ (idx : Nat) (payload : List Nat),
      serialize_newtype_variant idx (Outcome.ok payload) =
        Outcome.ok (idx % 256 :: payload)) ∧
    (∀ idx : Nat, serialize_tuple_variant idx = Outcome.ok [idx % 256]) ∧
    (∀ idx : Nat, serialize_struct_variant idx = Outcome.ok [idx % 256]) ∧
    serialize_unit_variant 256 = Outcome.ok [0] ∧
    serialize_unit_variant 300 = Outcome.ok [44] :=
  ⟨fun _ => rfl, fun _ _ => rfl, fun _ => rfl, fun _ => rfl, by decide,
    by decide⟩

end SerdeNet
